import Mathlib

/-!
Shallow embedding of the Scorpius rule-engine service
(`services/rule_engine/src/rule_dsl.rs`, `rule_executor.rs`, `main.rs`).

Modelling conventions:
* Rust `u64`/`u128` string parsing (`str::parse`) is modelled by
  `parseU64`/`parseU128`: an optional leading `'+'`, then one or more ASCII
  digits, with a range check against `2 ^ width`.
* `serde_json::Value` is modelled by `Json`; JSON numbers are carried as exact
  rationals: the 64-bit floating point arithmetic of the source (`as_f64`,
  `as f64` casts, `format!("{:.6}")`) is abstracted as exact rational
  arithmetic, with explicit round-half-to-even where the source formats output.
* `Uuid` is modelled by `Nat`; `DateTime<Utc>` by its Unix timestamp (`Int`).
* Fresh UUIDs (`Uuid::new_v4`) and clock reads (`Utc::now`) are supplied by an
  explicit oracle `fresh : Nat → Nat × Int` indexed by an allocation counter.
* The regex engine (`regex::Regex`) is an external deterministic library; it
  is modelled by an oracle `rx : String → String → Option Bool`
  (`none` = compilation failure, `some b` = the `is_match` result).
* Rust strings are modelled as Lean `String`s (sequences of characters); the
  byte index `data[0..10]` of the source coincides with the first 10
  characters on the ASCII hex strings the engine manipulates.
-/

/-- Model of `serde_json::Value`.  Numbers are exact rationals. -/
inductive Json where
  | null : Json
  | bool : Bool → Json
  | num : Rat → Json
  | str : String → Json
  | arr : List Json → Json
  | obj : List (String × Json) → Json

mutual

/-- Structural equality of JSON values (`serde_json::Value: PartialEq`). -/
def Json.beq : Json → Json → Bool
  | .null, .null => true
  | .bool a, .bool b => a == b
  | .num a, .num b => a == b
  | .str a, .str b => a == b
  | .arr a, .arr b => Json.beqList a b
  | .obj a, .obj b => Json.beqObj a b
  | _, _ => false

def Json.beqList : List Json → List Json → Bool
  | [], [] => true
  | x :: xs, y :: ys => Json.beq x y && Json.beqList xs ys
  | _, _ => false

def Json.beqObj : List (String × Json) → List (String × Json) → Bool
  | [], [] => true
  | (k, v) :: xs, (l, w) :: ys => k == l && Json.beq v w && Json.beqObj xs ys
  | _, _ => false

end

instance : BEq Json := ⟨Json.beq⟩

/-- `serde_json::Value::as_f64`: succeeds exactly on JSON numbers
(the i64/u64/f64 payloads are all abstracted as exact rationals). -/
def Json.asF64 : Json → Option Rat
  | .num q => some q
  | _ => none

/-- `serde_json::Value::as_str`. -/
def Json.asStr : Json → Option String
  | .str s => some s
  | _ => none

/-- `serde_json::Value::as_array`. -/
def Json.asArray : Json → Option (List Json)
  | .arr a => some a
  | _ => none

/-- Rust `str::parse::<uN>()` for an unsigned `width`-bit integer: optional
leading `'+'`, then a non-empty run of ASCII digits, rejected on overflow. -/
def parseUnsigned (width : Nat) (s : String) : Option Nat :=
  let cs :=
    match s.toList with
    | '+' :: rest => rest
    | cs => cs
  if cs.isEmpty then none
  else if cs.all (fun c => c.isDigit) then
    let n := cs.foldl (fun acc c => acc * 10 + (c.toNat - 48)) 0
    if n < 2 ^ width then some n else none
  else none

/-- `str::parse::<u128>()`. -/
def parseU128 (s : String) : Option Nat := parseUnsigned 128 s

/-- `str::parse::<u64>()`. -/
def parseU64 (s : String) : Option Nat := parseUnsigned 64 s

/-- Rust `str::starts_with` on character lists: `startsWithL pat s` is true
iff `pat` is an initial segment of `s`. -/
def startsWithL : List Char → List Char → Bool
  | [], _ => true
  | _ :: _, [] => false
  | p :: ps, c :: cs => p == c && startsWithL ps cs

/-- Rust `str::contains` on character lists: `occursIn pat s` is true iff
`pat` occurs as a contiguous run inside `s`. -/
def occursIn (pat : List Char) : List Char → Bool
  | [] => startsWithL pat []
  | c :: rest => startsWithL pat (c :: rest) || occursIn pat rest

/-- Rust `str::to_lowercase`, which the engine applies to ASCII hex
addresses: modelled as ASCII lowering, character by character. -/
def charLower (c : Char) : Char :=
  if 65 <= c.toNat ∧ c.toNat <= 90 then Char.ofNat (c.toNat + 32) else c

/-- `to_lowercase` on strings (ASCII model, see `charLower`). -/
def lowerStr (s : String) : String :=
  ⟨s.toList.map charLower⟩

/-- The `Transaction` record of `main.rs` (numeric fields carried as strings,
`raw` is the free-form attribute map).  The Rust fields `from` and `to` are
Lean keywords/tokens and are rendered `from_addr` / `to_addr`. -/
structure Transaction where
  hash : String
  chain_id : Int
  from_addr : String
  to_addr : String
  value : String
  gas : String
  gas_price : String
  data : String
  nonce : String
  timestamp : Int
  block_number : Option Int
  transaction_index : Option Int
  status : String
  raw : List (String × Json)

/-- `ComparisonOperator` of `rule_dsl.rs`. -/
inductive ComparisonOperator where
  | Equal | NotEqual
  | GreaterThan | LessThan | GreaterThanOrEqual | LessThanOrEqual
  | Contains | StartsWith | EndsWith
  | In | NotIn

/-- `AlertSeverity` of `main.rs`. -/
inductive AlertSeverity where
  | Low | Medium | High | Critical
deriving DecidableEq

/-- `RuleCondition` of `rule_dsl.rs`. -/
inductive RuleCondition where
  | ValueComparison (field : String) (operator : ComparisonOperator) (value : Json)
  | AddressMatch (field : String) (addresses : List String)
  | ContractCall (contract_address : String) (function_signature : String)
      (parameters : Option Json)
  | GasAnalysis (min_gas_price max_gas_price gas_limit_threshold : Option String)
  | ValueThreshold (field : String) (min_value max_value : Option String)
  | TimeWindow (start_time end_time : Option Int) (duration_seconds : Option Int)
  | ChainFilter (chain_ids : List Int)
  | MEVDetection (sandwich_attack frontrun_detection backrun_detection
      arbitrage_detection : Bool)
  | PatternMatch (field pattern : String) (regex : Bool)
  | Custom (wasm_code : String) (parameters : Json)

/-- `NotificationPriority` of `rule_dsl.rs`. -/
inductive NotificationPriority where
  | Low | Normal | High | Urgent

/-- `RuleAction` of `rule_dsl.rs` (notification channels and watchlist
actions are irrelevant to the evaluated semantics and carried abstractly). -/
inductive RuleAction where
  | CreateAlert (severity : AlertSeverity) (title description : String)
      (tags : List String) (metadata : Json)
  | SendNotification (channels : List String) (message : String)
      (priority : NotificationPriority)
  | StoreInDatabase (table : String) (data : Json)
  | CallWebhook (url method : String) (headers body : Json)
  | UpdateWatchlist (action : String) (addresses : List String)
  | Custom (wasm_code : String) (parameters : Json)

/-- The `Rule` record of `rule_dsl.rs`. -/
structure Rule where
  id : Nat
  name : String
  description : String
  conditions : List RuleCondition
  actions : List RuleAction
  enabled : Bool
  created_at : Int
  updated_at : Int

/-- `RuleCondition::get_field_value`. -/
def getFieldValue (t : Transaction) (field : String) : Json :=
  match field with
  | "hash" => Json.str t.hash
  | "from" => Json.str t.from_addr
  | "to" => Json.str t.to_addr
  | "value" => Json.str t.value
  | "gas" => Json.str t.gas
  | "gas_price" => Json.str t.gas_price
  | "data" => Json.str t.data
  | "nonce" => Json.str t.nonce
  | "chain_id" => Json.num (t.chain_id : Rat)
  | "timestamp" => Json.num (t.timestamp : Rat)
  | "status" => Json.str t.status
  | _ =>
    match t.raw.find? (fun p => p.1 == field) with
    | some p => p.2
    | none => Json.null

/-- `RuleCondition::compare_numeric`: try `as_f64` on both operands, else fall
back to parsing both as `u128` strings and comparing after the `as f64` cast
(the cast is abstracted as the exact embedding into the rationals). -/
def compareNumeric (a b : Json) (op : Rat → Rat → Bool) : Bool :=
  match a.asF64, b.asF64 with
  | some x, some y => op x y
  | _, _ =>
    match a.asStr, b.asStr with
    | some sa, some sb =>
      match parseU128 sa, parseU128 sb with
      | some na, some nb => op (na : Rat) (nb : Rat)
      | _, _ => false
    | _, _ => false

/-- `RuleCondition::evaluate_value_comparison`. -/
def evaluateValueComparison (t : Transaction) (field : String)
    (operator : ComparisonOperator) (value : Json) : Bool :=
  let fv := getFieldValue t field
  match operator with
  | .Equal => fv == value
  | .NotEqual => !(fv == value)
  | .GreaterThan => compareNumeric fv value (fun a b => decide (a > b))
  | .LessThan => compareNumeric fv value (fun a b => decide (a < b))
  | .GreaterThanOrEqual => compareNumeric fv value (fun a b => decide (a ≥ b))
  | .LessThanOrEqual => compareNumeric fv value (fun a b => decide (a ≤ b))
  | .Contains =>
    match fv.asStr, value.asStr with
    | some haystack, some needle => occursIn needle.toList haystack.toList
    | _, _ => false
  | .StartsWith =>
    match fv.asStr, value.asStr with
    | some haystack, some needle => haystack.startsWith needle
    | _, _ => false
  | .EndsWith =>
    match fv.asStr, value.asStr with
    | some haystack, some needle => haystack.endsWith needle
    | _, _ => false
  | .In =>
    match value.asArray with
    | some array => array.contains fv
    | none => false
  | .NotIn =>
    match value.asArray with
    | some array => !(array.contains fv)
    | none => true

/-- `RuleCondition::evaluate_address_match`. -/
def evaluateAddressMatch (t : Transaction) (field : String)
    (addresses : List String) : Bool :=
  match (getFieldValue t field).asStr with
  | some address => addresses.any (fun addr => lowerStr addr == lowerStr address)
  | none => false

/-- `RuleCondition::evaluate_contract_call`: `to` must equal the contract
address case-insensitively, and the first 10 characters of `data` (present
only when `data.len() >= 10`) must equal the function signature. -/
def evaluateContractCall (t : Transaction) (contract_address : String)
    (function_signature : String) : Bool :=
  if !(lowerStr t.to_addr == lowerStr contract_address) then false
  else if t.data.toList.length ≥ 10 then
    (t.data.toList.take 10).asString == function_signature
  else false

/-- `RuleCondition::evaluate_gas_analysis`. -/
def evaluateGasAnalysis (t : Transaction)
    (min_gas_price max_gas_price gas_limit_threshold : Option String) : Bool :=
  match parseU64 t.gas_price with
  | none => false
  | some gas_price =>
    let minOk :=
      match min_gas_price with
      | some s =>
        match parseU64 s with
        | some min_price => !(decide (gas_price < min_price))
        | none => true
      | none => true
    let maxOk :=
      match max_gas_price with
      | some s =>
        match parseU64 s with
        | some max_price => !(decide (gas_price > max_price))
        | none => true
      | none => true
    let limitOk :=
      match gas_limit_threshold with
      | some s =>
        match parseU64 s with
        | some threshold =>
          match parseU64 t.gas with
          | some gas_limit => !(decide (gas_limit < threshold))
          | none => true
        | none => true
      | none => true
    minOk && maxOk && limitOk

/-- `RuleCondition::evaluate_value_threshold`. -/
def evaluateValueThreshold (t : Transaction) (field : String)
    (min_value max_value : Option String) : Bool :=
  match (getFieldValue t field).asStr with
  | none => false
  | some value_str =>
    match parseU128 value_str with
    | none => false
    | some value =>
      let minOk :=
        match min_value with
        | some s =>
          match parseU128 s with
          | some mn => !(decide (value < mn))
          | none => true
        | none => true
      let maxOk :=
        match max_value with
        | some s =>
          match parseU128 s with
          | some mx => !(decide (value > mx))
          | none => true
        | none => true
      minOk && maxOk

/-- Lower bound of the timestamps representable by
`chrono::DateTime::<Utc>::from_timestamp`. -/
def chronoMinTimestamp : Int := -8334601228800

/-- Upper bound of the timestamps representable by
`chrono::DateTime::<Utc>::from_timestamp`. -/
def chronoMaxTimestamp : Int := 8210266876799

/-- `RuleCondition::evaluate_time_window` (`DateTime` values are modelled by
their Unix timestamps; `from_timestamp` fails outside chrono's range). -/
def evaluateTimeWindow (t : Transaction)
    (start_time end_time : Option Int) : Bool :=
  if chronoMinTimestamp ≤ t.timestamp ∧ t.timestamp ≤ chronoMaxTimestamp then
    let startOk :=
      match start_time with
      | some start => !(decide (t.timestamp < start))
      | none => true
    let endOk :=
      match end_time with
      | some e => !(decide (t.timestamp > e))
      | none => true
    startOk && endOk
  else false

/-- `RuleCondition::evaluate_pattern_match`; `rx` is the regex-engine
oracle (`none` models `Regex::new` failure). -/
def evaluatePatternMatch (rx : String → String → Option Bool)
    (t : Transaction) (field pattern : String) (isRegex : Bool) : Bool :=
  match (getFieldValue t field).asStr with
  | some value_str =>
    if isRegex then
      match rx pattern value_str with
      | some b => b
      | none => false
    else occursIn pattern.toList value_str.toList
  | none => false

/-- `RuleCondition::evaluate`. -/
def RuleCondition.evaluate (rx : String → String → Option Bool)
    (c : RuleCondition) (t : Transaction) : Bool :=
  match c with
  | .ValueComparison field operator value =>
    evaluateValueComparison t field operator value
  | .AddressMatch field addresses => evaluateAddressMatch t field addresses
  | .ContractCall contract_address function_signature _ =>
    evaluateContractCall t contract_address function_signature
  | .GasAnalysis mn mx th => evaluateGasAnalysis t mn mx th
  | .ValueThreshold field mn mx => evaluateValueThreshold t field mn mx
  | .TimeWindow start_time end_time _ => evaluateTimeWindow t start_time end_time
  | .ChainFilter chain_ids => chain_ids.contains t.chain_id
  | .MEVDetection _ _ _ _ => false
  | .PatternMatch field pattern isRegex =>
    evaluatePatternMatch rx t field pattern isRegex
  | .Custom _ _ => false

/-- `Rule::should_apply`: a disabled rule never applies; otherwise the
conjunction of all conditions. -/
def Rule.should_apply (rx : String → String → Option Bool) (r : Rule)
    (t : Transaction) : Bool :=
  if !r.enabled then false
  else r.conditions.all (fun c => c.evaluate rx t)

/-- Rust `str::replace` on character lists: replace every leftmost,
non-overlapping occurrence of `pat` in `s` by `repl`.  The first argument
is structural-recursion fuel; every call site supplies `s.length`, which
always suffices because each step consumes at least one character. -/
def replaceChars : Nat → List Char → List Char → List Char → List Char
  | 0, s, _, _ => s
  | fuel + 1, s, pat, repl =>
    match s with
    | [] => []
    | c :: rest =>
      if pat ≠ [] ∧ startsWithL pat (c :: rest) then
        repl ++ replaceChars fuel ((c :: rest).drop pat.length) pat repl
      else
        c :: replaceChars fuel rest pat repl

/-- Rust `str::replace` lifted to `String`. -/
def rsReplace (s pat repl : String) : String :=
  ⟨replaceChars s.toList.length s.toList pat.toList repl.toList⟩

/-- Decimal digits of `n`, most significant first (accumulator form; the
first argument is structural-recursion fuel, and `n` itself suffices). -/
def natDigitsAux : Nat → Nat → List Char → List Char
  | 0, _, acc => acc
  | fuel + 1, n, acc =>
    if n = 0 then acc
    else natDigitsAux fuel (n / 10) (Char.ofNat (48 + n % 10) :: acc)

/-- Decimal rendering of a natural number (Rust `Display` for unsigned). -/
def natToStr (n : Nat) : String :=
  if n = 0 then "0" else ⟨natDigitsAux n n []⟩

/-- Decimal rendering of a signed integer (Rust `Display` for `i64`). -/
def intToStr (i : Int) : String :=
  if i < 0 then "-" ++ natToStr i.natAbs else natToStr i.natAbs

/-- Round `num / den` to the nearest integer, ties to even (the rounding of
Rust's fixed-width float formatting, in the exact-rational abstraction). -/
def roundHalfEven (num den : Nat) : Nat :=
  let q := num / den
  let r := num % den
  if 2 * r < den then q
  else if 2 * r > den then q + 1
  else if q % 2 = 0 then q else q + 1

/-- Left-pad a string to `width` with `'0'`. -/
def padZeros (width : Nat) (s : String) : String :=
  ⟨List.replicate (width - s.length) '0'⟩ ++ s

/-- `format!("{:.d}", num / den)` in the exact-rational abstraction: the
decimal rendering of `num / den` rounded to `d` decimal places. -/
def formatFixed (d : Nat) (num den : Nat) : String :=
  let scaled := roundHalfEven (num * 10 ^ d) den
  natToStr (scaled / 10 ^ d) ++ "." ++ padZeros d (natToStr (scaled % 10 ^ d))

/-- `{{value_eth}}` rendering: `value_wei as f64 / 1e18` under `"{:.6}"`. -/
def formatEth (value_wei : Nat) : String := formatFixed 6 value_wei (10 ^ 18)

/-- `{{gas_price_gwei}}` rendering: `gas_price_wei as f64 / 1e9` under
`"{:.2}"`. -/
def formatGwei (gas_price_wei : Nat) : String :=
  formatFixed 2 gas_price_wei (10 ^ 9)

/-- `RuleExecutor::interpolate_template` (the source's `Result` is always
`Ok`, so the wrapper is dropped). -/
def interpolate_template (template : String) (t : Transaction) : String :=
  let r := template
  let r := rsReplace r "{{hash}}" t.hash
  let r := rsReplace r "{{from}}" t.from_addr
  let r := rsReplace r "{{to}}" t.to_addr
  let r := rsReplace r "{{value}}" t.value
  let r := rsReplace r "{{gas}}" t.gas
  let r := rsReplace r "{{gas_price}}" t.gas_price
  let r := rsReplace r "{{nonce}}" t.nonce
  let r := rsReplace r "{{chain_id}}" (intToStr t.chain_id)
  let r := rsReplace r "{{timestamp}}" (intToStr t.timestamp)
  let r := rsReplace r "{{status}}" t.status
  let r :=
    match parseU128 t.value with
    | some value_wei => rsReplace r "{{value_eth}}" (formatEth value_wei)
    | none => r
  let r :=
    match parseU64 t.gas_price with
    | some gas_price_wei =>
      rsReplace r "{{gas_price_gwei}}" (formatGwei gas_price_wei)
    | none => r
  r

/-- The `Alert` record of `main.rs`. -/
structure Alert where
  id : Nat
  rule_id : Nat
  transaction_hash : String
  chain_id : Int
  severity : AlertSeverity
  title : String
  description : String
  metadata : Json
  created_at : Int
  tags : List String

/-- The persistent payload of an alert: every field except the fresh `id`
and the `created_at` stamp. -/
structure AlertPayload where
  rule_id : Nat
  transaction_hash : String
  chain_id : Int
  severity : AlertSeverity
  title : String
  description : String
  metadata : Json
  tags : List String

/-- Strip the fresh identifier and timestamp from an alert. -/
def Alert.payload (a : Alert) : AlertPayload :=
  { rule_id := a.rule_id, transaction_hash := a.transaction_hash,
    chain_id := a.chain_id, severity := a.severity, title := a.title,
    description := a.description, metadata := a.metadata, tags := a.tags }

/-- One step of the action loop of `RuleExecutor::execute_single_rule`:
`CreateAlert` synthesizes an alert, its fresh id and `created_at` drawn from
the oracle at the current allocation counter; every other action only logs. -/
def runAction (fresh : Nat → Nat × Int) (r : Rule) (t : Transaction)
    (acc : List Alert × Nat) (a : RuleAction) : List Alert × Nat :=
  match a with
  | .CreateAlert severity title description tags metadata =>
    let fr := fresh acc.2
    (acc.1 ++ [{ id := fr.1, rule_id := r.id, transaction_hash := t.hash,
                 chain_id := t.chain_id, severity := severity,
                 title := interpolate_template title t,
                 description := interpolate_template description t,
                 metadata := metadata, created_at := fr.2, tags := tags }],
     acc.2 + 1)
  | _ => acc

/-- `RuleExecutor::execute_single_rule`, threading the allocation counter. -/
def execute_single_rule (fresh : Nat → Nat × Int) (r : Rule)
    (t : Transaction) (k : Nat) : List Alert × Nat :=
  r.actions.foldl (runAction fresh r t) ([], k)

/-- One iteration of the rule loop of `RuleExecutor::execute_rules`: a rule
passing `should_apply` contributes the alerts of its actions. -/
def runRule (rx : String → String → Option Bool) (fresh : Nat → Nat × Int)
    (t : Transaction) (acc : List Alert × Nat) (r : Rule) : List Alert × Nat :=
  if r.should_apply rx t then
    let res := execute_single_rule fresh r t acc.2
    (acc.1 ++ res.1, res.2)
  else acc

/-- `RuleExecutor::execute_rules`: run every rule passing `should_apply` and
concatenate the alerts (the spawned per-rule tasks are awaited in spawn
order, so the sequential fold reflects the source's output order). -/
def execute_rules (rx : String → String → Option Bool)
    (fresh : Nat → Nat × Int) (t : Transaction) (rules : List Rule) :
    List Alert :=
  (rules.foldl (runRule rx fresh t) ([], 0)).1

/-- `RiskScorer::is_suspicious_address` (placeholder: always false). -/
def is_suspicious_address (_address : String) : Bool := false

/-- `RiskScorer::calculate_risk_score`, parameterized by the suspicion
oracle (the source's default is `is_suspicious_address`); float arithmetic
abstracted as exact rational arithmetic. -/
def calculate_risk_score (susp : String → Bool) (t : Transaction) : Rat :=
  let score : Rat := 0
  let score :=
    match parseU128 t.value with
    | some value =>
      let value_eth : Rat := (value : Rat) / (10 ^ 18 : Rat)
      if value_eth > 100 then score + 3/10
      else if value_eth > 10 then score + 1/10
      else score
    | none => score
  let score :=
    match parseU64 t.gas_price with
    | some gas_price =>
      let gas_price_gwei : Rat := (gas_price : Rat) / (10 ^ 9 : Rat)
      if gas_price_gwei > 100 then score + 2/10
      else if gas_price_gwei > 50 then score + 1/10
      else score
    | none => score
  let score := if t.data ≠ "" ∧ t.data ≠ "0x" then score + 1/10 else score
  let score := if susp t.from_addr then score + 4/10 else score
  let score := if susp t.to_addr then score + 4/10 else score
  min score 1

/-- A record published to the output topic by `RuleEngineService::send_alert`:
partition `alert.chain_id % 4` (Rust's `%` is the truncated remainder,
`Int.tmod`) and key `alert.transaction_hash`. -/
structure SentRecord where
  partition : Int
  key : String
  alert : Alert

/-- `RuleEngineService::send_alert` (the Kafka hand-off itself is external;
the partition/key/payload selection is what is modelled). -/
def send_alert (a : Alert) : SentRecord :=
  { partition := Int.tmod a.chain_id 4, key := a.transaction_hash, alert := a }

/-- A row of the `rules` table as seen by `reload_rules`, with the serde
deserialization of the row's `conditions`/`actions` JSON text abstracted to
its outcome (`none` = that text fails to deserialize). -/
structure RuleRow where
  id : Nat
  name : String
  description : String
  conditions : Option (List RuleCondition)
  actions : Option (List RuleAction)
  enabled : Bool
  created_at : Int
  updated_at : Int

/-- Outcome of the `SELECT ... FROM rules WHERE enabled = true` query:
either the store is unreachable or a list of rows. -/
inductive FetchResult where
  | err : String → FetchResult
  | ok : List RuleRow → FetchResult

/-- `HashMap::insert` on the association-list model of `rules_cache`. -/
def cacheInsert (m : List (Nat × Rule)) (k : Nat) (r : Rule) :
    List (Nat × Rule) :=
  (k, r) :: m.filter (fun p => !(p.1 == k))

/-- `RuleEngineService::reload_rules`: build the new cache from the fetched
rows; a store error or a row whose conditions/actions fail to deserialize
aborts with `Except.error` (the source's `?`) before the cache assignment. -/
def reload_rules (fetch : FetchResult) :
    Except String (List (Nat × Rule)) :=
  match fetch with
  | .err e => .error e
  | .ok rows =>
    rows.foldlM
      (fun (m : List (Nat × Rule)) row =>
        match row.conditions, row.actions with
        | some conditions, some actions =>
          Except.ok (cacheInsert m row.id
            { id := row.id, name := row.name, description := row.description,
              conditions := conditions, actions := actions,
              enabled := row.enabled, created_at := row.created_at,
              updated_at := row.updated_at })
        | none, _ => .error "Failed to parse rule conditions"
        | some _, none => .error "Failed to parse rule actions")
      []

/-- The `rules_cache` after a `reload_rules` call with previous cache `prev`:
the source assigns `self.rules_cache = new_rules` only after every row
succeeded, so a failed reload leaves `prev` in place. -/
def cacheAfterReload (prev : List (Nat × Rule)) (fetch : FetchResult) :
    List (Nat × Rule) :=
  match reload_rules fetch with
  | .ok new_rules => new_rules
  | .error _ => prev

/-- `RuleEngineService::process_batch`.  `due` models
`last_rules_reload.elapsed() >= rule_reload_interval`; `fetch` is the store's
response if a reload is attempted.  The source's `self.reload_rules().await?`
propagates a reload failure out of `process_batch`; metrics recording and the
risk/MEV computations feed metrics only and are elided from the returned
value.  Returns the cache after the call and the records sent downstream. -/
def process_batch (rx : String → String → Option Bool)
    (fresh : Nat → Nat × Int) (cache : List (Nat × Rule)) (due : Bool)
    (fetch : FetchResult) (batch : List Transaction) :
    Except String (List (Nat × Rule) × List SentRecord) :=
  if batch.isEmpty then .ok (cache, [])
  else
    let reloaded : Except String (List (Nat × Rule)) :=
      if due then reload_rules fetch else .ok cache
    match reloaded with
    | .error e => .error e
    | .ok cache' =>
      let sent := batch.flatMap (fun txn =>
        (execute_rules rx fresh txn (cache'.map Prod.snd)).map send_alert)
      .ok (cache', sent)

/-! ### Concrete fixtures (used by witnesses and counterexamples) -/

/-- A regex oracle under which every pattern fails to compile. -/
def rxNone : String → String → Option Bool := fun _ _ => none

/-- A trivial freshness oracle. -/
def freshZero : Nat → Nat × Int := fun _ => (0, 0)

/-- A second freshness oracle, pointwise different from `freshZero`. -/
def freshOdd : Nat → Nat × Int := fun k => (2 * k + 1, (k : Int) + 7)

/-- The transaction of `rule_executor.rs`'s `test_rule_execution` test. -/
def txEx : Transaction :=
  { hash := "0x123", chain_id := 1, from_addr := "0xabc", to_addr := "0xdef",
    value := "1000000000000000000", gas := "21000",
    gas_price := "20000000000", data := "0x", nonce := "1",
    timestamp := 1640995200, block_number := none, transaction_index := none,
    status := "pending", raw := [] }

/-- A transaction carrying a DEX-router call (spec scenario 3). -/
def txSig : Transaction :=
  { txEx with to_addr := "0xROUTER", data := "0x38ed1739deadbeef" }

/-- A disabled rule that would create an alert if it could fire. -/
def ruleDisabled : Rule :=
  { id := 42, name := "disabled", description := "",
    conditions := [],
    actions := [RuleAction.CreateAlert AlertSeverity.Medium "t" "d" [] Json.null],
    enabled := false, created_at := 0, updated_at := 0 }

/-- An enabled rule with no conditions and one `CreateAlert` action. -/
def ruleOpen : Rule :=
  { id := 7, name := "open", description := "",
    conditions := [],
    actions := [RuleAction.CreateAlert AlertSeverity.Medium "t" "d" [] Json.null],
    enabled := true, created_at := 0, updated_at := 0 }

/-- A sample rules cache. -/
def cache0 : List (Nat × Rule) := [(7, ruleOpen)]

/-- An alert on a negative chain id. -/
def alertNeg : Alert :=
  { id := 0, rule_id := 0, transaction_hash := "0xh", chain_id := -1,
    severity := AlertSeverity.Low, title := "", description := "",
    metadata := Json.null, created_at := 0, tags := [] }

/-- The placeholders recognized by `interpolate_template`. -/
def knownPlaceholders : List String :=
  ["{{hash}}", "{{from}}", "{{to}}", "{{value}}", "{{gas}}", "{{gas_price}}",
   "{{nonce}}", "{{chain_id}}", "{{timestamp}}", "{{status}}",
   "{{value_eth}}", "{{gas_price_gwei}}"]

/-! ### Helper lemmas -/

lemma startsWithL_self (s : List Char) : startsWithL s s = true := by
  induction s with
  | nil => rfl
  | cons c cs ih => simp [startsWithL, ih]

lemma startsWithL_iff_ex (pat : List Char) :
    ∀ s, startsWithL pat s = true ↔ ∃ rest, s = pat ++ rest := by
  induction pat with
  | nil => intro s; simp [startsWithL]
  | cons p ps ih =>
    intro s
    cases s with
    | nil => simp [startsWithL]
    | cons c cs =>
      simp only [startsWithL, Bool.and_eq_true, beq_iff_eq, ih,
        List.cons_append, List.cons.injEq]
      constructor
      · rintro ⟨rfl, rest, rfl⟩; exact ⟨rest, rfl, rfl⟩
      · rintro ⟨rest, rfl, rfl⟩; exact ⟨rfl, rest, rfl⟩

lemma startsWithL_iff_take (pat s : List Char) :
    startsWithL pat s = true ↔
      pat.length ≤ s.length ∧ s.take pat.length = pat := by
  rw [startsWithL_iff_ex]
  constructor
  · rintro ⟨rest, rfl⟩
    constructor
    · simp
    · simpa using List.take_left pat rest
  · rintro ⟨hle, htake⟩
    refine ⟨s.drop pat.length, ?_⟩
    conv_lhs => rw [← List.take_append_drop pat.length s]
    rw [htake]

lemma replaceChars_nil (pat repl : List Char) (fuel : Nat) :
    replaceChars fuel [] pat repl = [] := by
  cases fuel <;> rfl

lemma replaceChars_no_occur (pat repl : List Char) :
    ∀ fuel s, occursIn pat s = false → replaceChars fuel s pat repl = s := by
  intro fuel
  induction fuel with
  | zero => intro s _; rfl
  | succ f ih =>
    intro s h
    cases s with
    | nil => rfl
    | cons c rest =>
      have h1 : startsWithL pat (c :: rest) = false
          ∧ occursIn pat rest = false := by
        simpa [occursIn, Bool.or_eq_false_iff] using h
      simp only [replaceChars]
      rw [if_neg, ih rest h1.2]
      rintro ⟨-, hsw⟩
      rw [h1.1] at hsw
      exact absurd hsw (by simp)

lemma replaceChars_self (s repl : List Char) (h : s ≠ []) (fuel : Nat) :
    replaceChars (fuel + 1) s s repl = repl := by
  cases s with
  | nil => exact absurd rfl h
  | cons c cs =>
    simp only [replaceChars]
    rw [if_pos ⟨List.cons_ne_nil c cs, startsWithL_self _⟩,
      List.drop_length, replaceChars_nil, List.append_nil]

lemma toList_mk (l : List Char) : (⟨l⟩ : String).toList = l := rfl

lemma mk_toList (s : String) : (⟨s.toList⟩ : String) = s := by
  cases s; rfl

lemma rsReplace_no_occur (s pat repl : String)
    (h : occursIn pat.toList s.toList = false) : rsReplace s pat repl = s := by
  unfold rsReplace
  rw [replaceChars_no_occur _ _ _ _ h, mk_toList]

lemma rsReplace_self (s repl : String) (h : s.toList ≠ []) :
    rsReplace s s repl = repl := by
  unfold rsReplace
  cases hl : s.toList with
  | nil => exact absurd hl h
  | cons c cs =>
    have hlen : (c :: cs).length = cs.length + 1 := rfl
    rw [hlen, replaceChars_self _ _ (List.cons_ne_nil c cs), mk_toList]

lemma occursIn_no_brace (ps : List Char) :
    ∀ s : List Char, (∀ c ∈ s, c ≠ '{') → occursIn ('{' :: ps) s = false := by
  intro s
  induction s with
  | nil => intro _; rfl
  | cons c rest ih =>
    intro h
    have hc : ('{' == c) = false := by
      simp only [beq_eq_false_iff_ne, ne_eq]
      exact fun he => (h c (List.mem_cons_self c rest)) he.symm
    simp only [occursIn, startsWithL, hc, Bool.false_and, Bool.false_or]
    exact ih (fun c hm => h c (List.mem_cons_of_mem _ hm))

lemma natDigitsAux_no_brace :
    ∀ fuel n acc, (∀ c ∈ acc, c ≠ '{') →
      ∀ c ∈ natDigitsAux fuel n acc, c ≠ '{' := by
  intro fuel
  induction fuel with
  | zero => intro n acc hacc c hc; exact hacc c hc
  | succ f ih =>
    intro n acc hacc c hc
    simp only [natDigitsAux] at hc
    by_cases hn : n = 0
    · rw [if_pos hn] at hc; exact hacc c hc
    · rw [if_neg hn] at hc
      refine ih (n / 10) _ ?_ c hc
      intro d hd
      rcases List.mem_cons.mp hd with h1 | h2
      · subst h1
        have h10 : n % 10 < 10 := Nat.mod_lt _ (by norm_num)
        interval_cases h : (n % 10) <;> decide
      · exact hacc d h2

lemma natToStr_no_brace (n : Nat) : ∀ c ∈ (natToStr n).toList, c ≠ '{' := by
  unfold natToStr
  by_cases hn : n = 0
  · rw [if_pos hn]; decide
  · rw [if_neg hn]
    exact natDigitsAux_no_brace n n [] (by simp)

lemma toList_append (s t : String) : (s ++ t).toList = s.toList ++ t.toList := rfl

lemma formatFixed_no_brace (d num den : Nat) :
    ∀ c ∈ (formatFixed d num den).toList, c ≠ '{' := by
  unfold formatFixed padZeros
  intro c hc
  simp only [toList_append, List.mem_append, toList_mk] at hc
  rcases hc with (h | h) | h | h
  · exact natToStr_no_brace _ c h
  · have hc : c = '.' := by simpa using h
    subst hc; decide
  · have hc : c = '0' := List.eq_of_mem_replicate h
    subst hc; decide
  · exact natToStr_no_brace _ c h

lemma runAction_foldl_payload (f1 f2 : Nat → Nat × Int) (r : Rule)
    (t : Transaction) :
    ∀ (actions : List RuleAction) (p q : List Alert × Nat),
      p.1.map Alert.payload = q.1.map Alert.payload → p.2 = q.2 →
      (actions.foldl (runAction f1 r t) p).1.map Alert.payload
          = (actions.foldl (runAction f2 r t) q).1.map Alert.payload
        ∧ (actions.foldl (runAction f1 r t) p).2
          = (actions.foldl (runAction f2 r t) q).2 := by
  intro actions
  induction actions with
  | nil => intro p q h1 h2; exact ⟨h1, h2⟩
  | cons a rest ih =>
    intro p q h1 h2
    simp only [List.foldl_cons]
    cases a with
    | CreateAlert sev ti de tg md =>
      apply ih
      · simp only [runAction, List.map_append, List.map_cons, List.map_nil,
          Alert.payload, h1]
      · simp only [runAction, h2]
    | SendNotification c m pr => exact ih _ _ h1 h2
    | StoreInDatabase ta d => exact ih _ _ h1 h2
    | CallWebhook u m hd b => exact ih _ _ h1 h2
    | UpdateWatchlist ac ad => exact ih _ _ h1 h2
    | Custom w pa => exact ih _ _ h1 h2

lemma execute_single_rule_payload (f1 f2 : Nat → Nat × Int) (r : Rule)
    (t : Transaction) (k1 k2 : Nat) (hk : k1 = k2) :
    (execute_single_rule f1 r t k1).1.map Alert.payload
        = (execute_single_rule f2 r t k2).1.map Alert.payload
      ∧ (execute_single_rule f1 r t k1).2 = (execute_single_rule f2 r t k2).2 :=
  runAction_foldl_payload f1 f2 r t r.actions ([], k1) ([], k2) rfl hk

lemma runRule_foldl_payload (rx : String → String → Option Bool)
    (f1 f2 : Nat → Nat × Int) (t : Transaction) :
    ∀ (rules : List Rule) (p q : List Alert × Nat),
      p.1.map Alert.payload = q.1.map Alert.payload → p.2 = q.2 →
      (rules.foldl (runRule rx f1 t) p).1.map Alert.payload
          = (rules.foldl (runRule rx f2 t) q).1.map Alert.payload
        ∧ (rules.foldl (runRule rx f1 t) p).2
          = (rules.foldl (runRule rx f2 t) q).2 := by
  intro rules
  induction rules with
  | nil => intro p q h1 h2; exact ⟨h1, h2⟩
  | cons r rest ih =>
    intro p q h1 h2
    simp only [List.foldl_cons]
    by_cases hs : r.should_apply rx t = true
    · obtain ⟨ha, hk⟩ := execute_single_rule_payload f1 f2 r t p.2 q.2 h2
      apply ih
      · simp only [runRule, hs, if_true, List.map_append, h1, ha]
      · simp only [runRule, hs, if_true, hk]
    · have hs' : r.should_apply rx t = false := by simpa using hs
      rw [show runRule rx f1 t p r = p from by simp [runRule, hs'],
        show runRule rx f2 t q r = q from by simp [runRule, hs']]
      exact ih p q h1 h2

/-! ### Claim theorems -/

/-- C7: rule execution is deterministic in the transaction and the snapshot:
any two runs of `execute_rules` (any two freshness oracles supplying the
alert UUIDs and `created_at` stamps) produce the same alert payloads —
rule id, transaction hash, chain id, severity, title, description, metadata
and tags — in the same order. -/
theorem execute_rules_deterministic (rx : String → String → Option Bool)
    (fresh1 fresh2 : Nat → Nat × Int) (t : Transaction) (rules : List Rule) :
    (execute_rules rx fresh1 t rules).map Alert.payload
      = (execute_rules rx fresh2 t rules).map Alert.payload :=
  (runRule_foldl_payload rx fresh1 fresh2 t rules ([], 0) ([], 0) rfl rfl).1

/-- C1: a rule fires iff it is enabled and the conjunction of all its
conditions evaluates true; an empty condition list matches every
transaction (the rule then fires iff enabled); a disabled rule contributes
no alerts and no intents to `execute_rules` (deleting it from the snapshot
changes nothing); and a rule that does not apply produces nothing. -/
theorem rule_fires_iff_enabled_and_conditions
    (rx : String → String → Option Bool) (fresh : Nat → Nat × Int)
    (t : Transaction) (r : Rule) (pre post : List Rule) :
    (r.should_apply rx t
        = (r.enabled && r.conditions.all (fun c => c.evaluate rx t)))
      ∧ (r.conditions = [] → r.should_apply rx t = r.enabled)
      ∧ (r.enabled = false →
          execute_rules rx fresh t (pre ++ r :: post)
            = execute_rules rx fresh t (pre ++ post))
      ∧ (r.should_apply rx t = false → execute_rules rx fresh t [r] = []) := by
  refine ⟨?_, ?_, ?_, ?_⟩
  · unfold Rule.should_apply
    cases he : r.enabled <;> simp [he]
  · intro hc
    unfold Rule.should_apply
    cases he : r.enabled <;> simp [he, hc]
  · intro he
    have hskip : ∀ acc, runRule rx fresh t acc r = acc := by
      intro acc
      simp [runRule, Rule.should_apply, he]
    unfold execute_rules
    rw [List.foldl_append, List.foldl_cons, hskip, ← List.foldl_append]
  · intro hs
    unfold execute_rules
    simp [runRule, hs]

/-- Witness for C1 at the disabled fixture rule. -/
theorem rule_fires_iff_enabled_and_conditions_witness :
    ruleDisabled.should_apply rxNone txEx
        = (ruleDisabled.enabled
            && ruleDisabled.conditions.all (fun c => c.evaluate rxNone txEx))
      ∧ execute_rules rxNone freshZero txEx ([] ++ ruleDisabled :: [])
          = execute_rules rxNone freshZero txEx ([] ++ []) := by
  obtain ⟨h1, -, h3, -⟩ :=
    rule_fires_iff_enabled_and_conditions rxNone freshZero txEx ruleDisabled [] []
  exact ⟨h1, h3 rfl⟩

/-- C8 counterexample: the alert with `chain_id = -1` is assigned Rust's
truncated remainder `-1 % 4 = -1`, which differs from the mathematical
residue `3` and does not lie in `{0,1,2,3}`. -/
theorem send_alert_negative_partition :
    (send_alert alertNeg).partition = -1
      ∧ ((-1 : Int) % 4 = 3)
      ∧ (send_alert alertNeg).partition ≠ (-1 : Int) % 4
      ∧ ¬(0 ≤ (send_alert alertNeg).partition) :=
  ⟨rfl, by decide, by decide, by decide⟩

/-- C8 amended: every published alert is keyed by its transaction hash and
partitioned by `chain_id % 4` under Rust's truncated remainder (`Int.tmod`);
for non-negative `chain_id` this agrees with the mathematical residue and
lies in `{0,1,2,3}`.  The mapping is a pure function of the alert, hence
stable. -/
theorem send_alert_partition (a : Alert) :
    (send_alert a).key = a.transaction_hash
      ∧ (send_alert a).alert = a
      ∧ (send_alert a).partition = Int.tmod a.chain_id 4
      ∧ (0 ≤ a.chain_id →
          (send_alert a).partition = a.chain_id % 4
            ∧ 0 ≤ (send_alert a).partition ∧ (send_alert a).partition < 4) := by
  refine ⟨rfl, rfl, rfl, ?_⟩
  intro h
  obtain ⟨m, hm⟩ := Int.eq_ofNat_of_zero_le h
  have htm : (send_alert a).partition = a.chain_id % 4 := by
    show Int.tmod a.chain_id 4 = a.chain_id % 4
    rw [hm]
    rfl
  refine ⟨htm, ?_, ?_⟩
  · rw [htm]
    exact Int.emod_nonneg _ (by norm_num)
  · rw [htm]
    exact Int.emod_lt_of_pos _ (by norm_num)

/-- Witness for C8 amended at `chain_id = 6`. -/
theorem send_alert_partition_witness :
    (send_alert { alertNeg with chain_id := 6 }).key = "0xh"
      ∧ (send_alert { alertNeg with chain_id := 6 }).partition = 2 := by
  obtain ⟨h1, -, -, h4⟩ := send_alert_partition { alertNeg with chain_id := 6 }
  obtain ⟨hp, -, -⟩ := h4 (by decide)
  refine ⟨h1, ?_⟩
  rw [hp]
  decide

/-- C3 counterexample: with a nonempty batch, a due reload and an
unreachable store, `process_batch` returns `Except.error` — the reload
failure is fatal to the batch (the source's `self.reload_rules().await?`),
contrary to the claim that processing continues. -/
theorem process_batch_reload_failure_fatal :
    process_batch rxNone freshZero cache0 true
        (FetchResult.err "store unreachable") [txEx]
      = Except.error "store unreachable" := rfl

/-- C3 amended: a failed reload (store unreachable or a malformed row)
leaves the previous cache snapshot in place — `rules_cache` is assigned only
after every row deserializes — but the failure is not non-fatal: the
batch-start reload check propagates the error out of `process_batch`, so the
batch is not processed. -/
theorem reload_failure_keeps_snapshot (prev : List (Nat × Rule))
    (fetch : FetchResult) (e : String) (rx : String → String → Option Bool)
    (fresh : Nat → Nat × Int) (batch : List Transaction)
    (h : reload_rules fetch = Except.error e) :
    cacheAfterReload prev fetch = prev
      ∧ (batch ≠ [] →
          process_batch rx fresh prev true fetch batch = Except.error e) := by
  constructor
  · unfold cacheAfterReload
    rw [h]
  · intro hb
    cases batch with
    | nil => exact absurd rfl hb
    | cons b bs =>
      unfold process_batch
      simp [h]

/-- Witness for C3 amended with an unreachable store. -/
theorem reload_failure_keeps_snapshot_witness :
    cacheAfterReload cache0 (FetchResult.err "down") = cache0
      ∧ process_batch rxNone freshZero cache0 true (FetchResult.err "down")
          [txEx] = Except.error "down" := by
  obtain ⟨h1, h2⟩ := reload_failure_keeps_snapshot cache0
    (FetchResult.err "down") "down" rxNone freshZero [txEx] rfl
  exact ⟨h1, h2 (List.cons_ne_nil txEx [])⟩

/-- C2: for the numeric operators gt/lt/ge/le: if both operands are JSON
numbers (`as_f64` succeeds, the "parse as 64-bit floats" case) they are
compared numerically; otherwise, if both operands are strings parsing as
unsigned 128-bit integers, they are compared as integers cast to float
(the cast exact in this model); and a `null` operand on either side makes
the comparison false. -/
theorem value_comparison_numeric_semantics (t : Transaction) (field : String)
    (value : Json) :
    (∀ x y, getFieldValue t field = Json.num x → value = Json.num y →
        evaluateValueComparison t field .GreaterThan value = decide (x > y)
          ∧ evaluateValueComparison t field .LessThan value = decide (x < y)
          ∧ evaluateValueComparison t field .GreaterThanOrEqual value
              = decide (x ≥ y)
          ∧ evaluateValueComparison t field .LessThanOrEqual value
              = decide (x ≤ y))
      ∧ (∀ sa sb na nb, getFieldValue t field = Json.str sa →
          value = Json.str sb → parseU128 sa = some na →
          parseU128 sb = some nb →
          evaluateValueComparison t field .GreaterThan value
              = decide ((na : Rat) > (nb : Rat))
            ∧ evaluateValueComparison t field .LessThan value
              = decide ((na : Rat) < (nb : Rat))
            ∧ evaluateValueComparison t field .GreaterThanOrEqual value
              = decide ((na : Rat) ≥ (nb : Rat))
            ∧ evaluateValueComparison t field .LessThanOrEqual value
              = decide ((na : Rat) ≤ (nb : Rat)))
      ∧ ((getFieldValue t field = Json.null ∨ value = Json.null) →
          evaluateValueComparison t field .GreaterThan value = false
            ∧ evaluateValueComparison t field .LessThan value = false
            ∧ evaluateValueComparison t field .GreaterThanOrEqual value = false
            ∧ evaluateValueComparison t field .LessThanOrEqual value = false) := by
  refine ⟨?_, ?_, ?_⟩
  · intro x y hf hv
    subst hv
    refine ⟨?_, ?_, ?_, ?_⟩ <;>
      simp [evaluateValueComparison, compareNumeric, hf, Json.asF64]
  · intro sa sb na nb hf hv hna hnb
    subst hv
    refine ⟨?_, ?_, ?_, ?_⟩ <;>
      simp [evaluateValueComparison, compareNumeric, hf, hna, hnb,
        Json.asF64, Json.asStr]
  · rintro (hf | hv)
    · refine ⟨?_, ?_, ?_, ?_⟩ <;>
        cases value <;>
          simp [evaluateValueComparison, compareNumeric, hf,
            Json.asF64, Json.asStr]
    · subst hv
      refine ⟨?_, ?_, ?_, ?_⟩ <;>
        cases hg : getFieldValue t field <;>
          simp [evaluateValueComparison, compareNumeric, hg,
            Json.asF64, Json.asStr]

/-- Witness for C2: the string case at the executor test's operands. -/
theorem value_comparison_numeric_semantics_witness :
    evaluateValueComparison txEx "value" ComparisonOperator.GreaterThan
      (Json.str "500000000000000000") = true := by
  obtain ⟨-, hstr, -⟩ := value_comparison_numeric_semantics txEx "value"
    (Json.str "500000000000000000")
  obtain ⟨hgt, -, -, -⟩ := hstr "1000000000000000000" "500000000000000000"
    1000000000000000000 500000000000000000 rfl rfl (by decide) (by decide)
  rw [hgt]
  norm_num

/-- C5: a `ContractCall` condition with a 10-character signature (the
expected `"0x"` + 8 hex form) matches iff `to` equals the contract address
case-insensitively and `data` begins with the signature; with data
`"0x38ed1739deadbeef"` the signature `"0x38ed1739"` matches and
`"0x38ed173a"` does not. -/
theorem contract_call_semantics (t : Transaction) (ca sig : String)
    (hlen : sig.toList.length = 10) :
    (evaluateContractCall t ca sig
        = (lowerStr t.to_addr == lowerStr ca
            && startsWithL sig.toList t.data.toList))
      ∧ evaluateContractCall txSig "0xrouter" "0x38ed1739" = true
      ∧ evaluateContractCall txSig "0xrouter" "0x38ed173a" = false := by
  refine ⟨?_, by decide, by decide⟩
  unfold evaluateContractCall
  cases hlow : (lowerStr t.to_addr == lowerStr ca) with
  | false => simp [hlow]
  | true =>
    simp only [hlow, Bool.not_true, Bool.true_and, Bool.false_eq_true,
      if_false]
    have hiff := startsWithL_iff_take sig.toList t.data.toList
    rw [hlen] at hiff
    by_cases hlen10 : 10 ≤ t.data.toList.length
    · rw [if_pos hlen10]
      cases hsw : startsWithL sig.toList t.data.toList with
      | false =>
        simp only [beq_eq_false_iff_ne, ne_eq]
        intro heq
        have htake : t.data.toList.take 10 = sig.toList := by
          have h2 := congrArg String.toList heq
          simpa [toList_mk] using h2
        rw [hiff.mpr ⟨hlen10, htake⟩] at hsw
        simp at hsw
      | true =>
        obtain ⟨-, htake⟩ := hiff.mp hsw
        rw [htake]
        have hres : sig.data.asString = sig := by cases sig; rfl
        simp [hres]
    · rw [if_neg hlen10]
      cases hsw : startsWithL sig.toList t.data.toList with
      | false => rfl
      | true => exact absurd (hiff.mp hsw).1 hlen10

/-- Witness for C5 at the router fixture. -/
theorem contract_call_semantics_witness :
    evaluateContractCall txSig "0xrouter" "0x38ed1739"
      = (lowerStr txSig.to_addr == lowerStr "0xrouter"
          && startsWithL "0x38ed1739".toList txSig.data.toList) :=
  (contract_call_semantics txSig "0xrouter" "0x38ed1739" (by decide)).1

/-- C6: `ValueThreshold` evaluates with exact unsigned 128-bit integer
arithmetic and inclusive bounds: under parseable bounds it is true iff the
field is a string parsing as `u128` lying in `[min, max]` (each bound
applying when present); the boundary values `0`, `1` and `2 ^ 128 - 1` are
accepted, and non-parseable field values (negative, fractional) are
rejected. -/
theorem value_threshold_semantics (t : Transaction) (field : String)
    (mnS mxS : Option String)
    (hmn : ∀ s, mnS = some s → (parseU128 s).isSome = true)
    (hmx : ∀ s, mxS = some s → (parseU128 s).isSome = true) :
    (evaluateValueThreshold t field mnS mxS = true ↔
        ∃ v, ((getFieldValue t field).asStr.bind parseU128) = some v
          ∧ (∀ m, mnS.bind parseU128 = some m → m ≤ v)
          ∧ (∀ m, mxS.bind parseU128 = some m → v ≤ m))
      ∧ evaluateValueThreshold { txEx with value := "0" } "value"
          (some "0") (some "340282366920938463463374607431768211455") = true
      ∧ evaluateValueThreshold { txEx with value := "1" } "value"
          (some "0") (some "340282366920938463463374607431768211455") = true
      ∧ evaluateValueThreshold
          { txEx with value := "340282366920938463463374607431768211455" }
          "value" (some "0")
          (some "340282366920938463463374607431768211455") = true
      ∧ evaluateValueThreshold { txEx with value := "-1" } "value"
          none none = false
      ∧ evaluateValueThreshold { txEx with value := "12.5" } "value"
          none none = false := by
  refine ⟨?_, by decide, by decide, by decide, by decide, by decide⟩
  cases hstr : (getFieldValue t field).asStr with
  | none => simp [evaluateValueThreshold, hstr]
  | some vs =>
    cases hp : parseU128 vs with
    | none => simp [evaluateValueThreshold, hstr, hp]
    | some v =>
      simp only [Option.some_bind, hp, Option.some.injEq, exists_eq_left']
      rcases mnS with - | s1
      · rcases mxS with - | s2
        · simp [evaluateValueThreshold, hstr, hp]
        · obtain ⟨m2, hm2⟩ := Option.isSome_iff_exists.mp (hmx s2 rfl)
          simp [evaluateValueThreshold, hstr, hp, hm2, Nat.not_lt]
      · obtain ⟨m1, hm1⟩ := Option.isSome_iff_exists.mp (hmn s1 rfl)
        rcases mxS with - | s2
        · simp [evaluateValueThreshold, hstr, hp, hm1, Nat.not_lt]
        · obtain ⟨m2, hm2⟩ := Option.isSome_iff_exists.mp (hmx s2 rfl)
          simp [evaluateValueThreshold, hstr, hp, hm1, hm2, Nat.not_lt]

/-- Witness for C6 at the executor test's transaction. -/
theorem value_threshold_semantics_witness :
    evaluateValueThreshold txEx "value" (some "1")
      (some "2000000000000000000") = true := by
  obtain ⟨hiff, -⟩ := value_threshold_semantics txEx "value" (some "1")
    (some "2000000000000000000")
    (fun s hs => by cases hs; decide) (fun s hs => by cases hs; decide)
  refine hiff.mpr ⟨1000000000000000000, by decide, ?_, ?_⟩
  · intro m hm
    cases (by decide : ((some "1").bind parseU128) = some 1) ▸ hm
    decide
  · intro m hm
    cases (by decide :
      ((some "2000000000000000000").bind parseU128)
        = some 2000000000000000000) ▸ hm
    decide

/-- C10: `GasAnalysis` is false whenever the transaction's `gas_price` does
not parse as `u64`, even with no bounds configured; a configured bound whose
own string does not parse is silently skipped, as is the
`gas_limit_threshold` check when the transaction's `gas` does not parse — so
the condition can still evaluate true despite malformed bounds and an
unparseable `gas` field. -/
theorem gas_analysis_error_handling (t : Transaction)
    (mn mx th : Option String) (s : String) :
    (parseU64 t.gas_price = none → evaluateGasAnalysis t mn mx th = false)
      ∧ (parseU64 s = none →
          evaluateGasAnalysis t (some s) mx th
              = evaluateGasAnalysis t none mx th
            ∧ evaluateGasAnalysis t mn (some s) th
              = evaluateGasAnalysis t mn none th
            ∧ evaluateGasAnalysis t mn mx (some s)
              = evaluateGasAnalysis t mn mx none)
      ∧ (parseU64 t.gas = none →
          evaluateGasAnalysis t mn mx th = evaluateGasAnalysis t mn mx none)
      ∧ evaluateGasAnalysis { txEx with gas := "nogas" }
          (some "garbage") (some "xyz") (some "999999") = true := by
  refine ⟨?_, ?_, ?_, by decide⟩
  · intro h
    simp [evaluateGasAnalysis, h]
  · intro h
    refine ⟨?_, ?_, ?_⟩ <;>
      cases hgp : parseU64 t.gas_price <;>
        simp [evaluateGasAnalysis, hgp, h]
  · intro h
    cases hgp : parseU64 t.gas_price with
    | none => simp [evaluateGasAnalysis, hgp]
    | some g =>
      rcases th with - | s2
      · rfl
      · cases hs2 : parseU64 s2 <;>
          simp [evaluateGasAnalysis, hgp, hs2, h]

/-- Witness for C10 on an unparseable `gas_price`. -/
theorem gas_analysis_error_handling_witness :
    evaluateGasAnalysis { txEx with gas_price := "wat" } none none none
      = false := by
  have h := (gas_analysis_error_handling { txEx with gas_price := "wat" }
    none none none "x").1
  exact h (by decide)

lemma value_gt_100_iff (v : Nat) :
    ((v : Rat) / (10 ^ 18 : Rat) > 100) ↔ 100 * 10 ^ 18 < v := by
  rw [gt_iff_lt, lt_div_iff (by positivity)]
  exact_mod_cast Iff.rfl

lemma value_gt_10_iff (v : Nat) :
    ((v : Rat) / (10 ^ 18 : Rat) > 10) ↔ 10 * 10 ^ 18 < v := by
  rw [gt_iff_lt, lt_div_iff (by positivity)]
  exact_mod_cast Iff.rfl

lemma gas_gt_100_iff (g : Nat) :
    ((g : Rat) / (10 ^ 9 : Rat) > 100) ↔ 100 * 10 ^ 9 < g := by
  rw [gt_iff_lt, lt_div_iff (by positivity)]
  exact_mod_cast Iff.rfl

lemma gas_gt_50_iff (g : Nat) :
    ((g : Rat) / (10 ^ 9 : Rat) > 50) ↔ 50 * 10 ^ 9 < g := by
  rw [gt_iff_lt, lt_div_iff (by positivity)]
  exact_mod_cast Iff.rfl

set_option maxHeartbeats 2000000 in
/-- C9: the risk score is `min (sum, 1)` of: `0.3` if `value` exceeds
100 ETH else `0.1` if it exceeds 10 ETH (`0` otherwise, including an
unparseable `value`); `0.2` if `gas_price` exceeds 100 gwei else `0.1`
above 50 gwei; `0.1` for non-empty calldata other than `"0x"`; `0.4` for
each suspicious address (and the default oracle marks nothing suspicious);
hence the score always lies in `[0, 1]`. -/
theorem risk_score_formula (susp : String → Bool) (t : Transaction) :
    calculate_risk_score susp t
        = min ((match parseU128 t.value with
                | some v => if 100 * 10 ^ 18 < v then (3 : Rat)/10
                            else if 10 * 10 ^ 18 < v then 1/10 else 0
                | none => 0)
              + (match parseU64 t.gas_price with
                | some g => if 100 * 10 ^ 9 < g then (2 : Rat)/10
                            else if 50 * 10 ^ 9 < g then 1/10 else 0
                | none => 0)
              + (if t.data ≠ "" ∧ t.data ≠ "0x" then (1 : Rat)/10 else 0)
              + (if susp t.from_addr then (4 : Rat)/10 else 0)
              + (if susp t.to_addr then (4 : Rat)/10 else 0)) 1
      ∧ 0 ≤ calculate_risk_score susp t
      ∧ calculate_risk_score susp t ≤ 1
      ∧ (∀ a, is_suspicious_address a = false) := by
  have hmain : calculate_risk_score susp t
      = min ((match parseU128 t.value with
              | some v => if 100 * 10 ^ 18 < v then (3 : Rat)/10
                          else if 10 * 10 ^ 18 < v then 1/10 else 0
              | none => 0)
            + (match parseU64 t.gas_price with
              | some g => if 100 * 10 ^ 9 < g then (2 : Rat)/10
                          else if 50 * 10 ^ 9 < g then 1/10 else 0
              | none => 0)
            + (if t.data ≠ "" ∧ t.data ≠ "0x" then (1 : Rat)/10 else 0)
            + (if susp t.from_addr then (4 : Rat)/10 else 0)
            + (if susp t.to_addr then (4 : Rat)/10 else 0)) 1 := by
    unfold calculate_risk_score
    cases hv : parseU128 t.value <;> cases hg : parseU64 t.gas_price <;>
      simp only [value_gt_100_iff, value_gt_10_iff, gas_gt_100_iff,
        gas_gt_50_iff] <;>
      split_ifs <;> (try (congr 1)) <;> (try ring)
  refine ⟨hmain, ?_, ?_, fun _ => rfl⟩
  · rw [hmain]
    refine le_min ?_ (by norm_num)
    have h1 : (0 : Rat) ≤ match parseU128 t.value with
        | some v => if 100 * 10 ^ 18 < v then (3 : Rat)/10
                    else if 10 * 10 ^ 18 < v then 1/10 else 0
        | none => 0 := by
      cases parseU128 t.value <;> simp <;> split_ifs <;> norm_num
    have h2 : (0 : Rat) ≤ match parseU64 t.gas_price with
        | some g => if 100 * 10 ^ 9 < g then (2 : Rat)/10
                    else if 50 * 10 ^ 9 < g then 1/10 else 0
        | none => 0 := by
      cases parseU64 t.gas_price <;> simp <;> split_ifs <;> norm_num
    have h3 : (0 : Rat) ≤ if t.data ≠ "" ∧ t.data ≠ "0x" then (1 : Rat)/10 else 0 := by
      split_ifs <;> norm_num
    have h4 : (0 : Rat) ≤ if susp t.from_addr then (4 : Rat)/10 else 0 := by
      split_ifs <;> norm_num
    have h5 : (0 : Rat) ≤ if susp t.to_addr then (4 : Rat)/10 else 0 := by
      split_ifs <;> norm_num
    positivity
  · rw [hmain]
    exact min_le_right _ _

lemma occursIn_brace_head (pat s : List Char) (hp : pat.head? = some '{')
    (h : ∀ c ∈ s, c ≠ '{') : occursIn pat s = false := by
  cases pat with
  | nil => cases hp
  | cons p ps =>
    have hp' : p = '{' := by simpa using hp
    subst hp'
    exact occursIn_no_brace ps s h

/-- C4: template interpolation replaces `{{value_eth}}` by `value / 10 ^ 18`
formatted to six decimals when `value` parses as `u128` and leaves the
placeholder untouched otherwise; the same holds for `{{gas_price_gwei}}` at
`/ 10 ^ 9` with two decimals; templates containing none of the recognized
placeholders are left verbatim; and the transaction with hash `"0x123"` and
value `"1000000000000000000"` interpolates `"{{hash}} {{value_eth}}"` to
exactly `"0x123 1.000000"`. -/
theorem template_interpolation (t : Transaction) :
    (∀ w, parseU128 t.value = some w →
        interpolate_template "{{value_eth}}" t = formatEth w)
      ∧ (parseU128 t.value = none →
        interpolate_template "{{value_eth}}" t = "{{value_eth}}")
      ∧ (∀ g, parseU64 t.gas_price = some g →
        interpolate_template "{{gas_price_gwei}}" t = formatGwei g)
      ∧ (parseU64 t.gas_price = none →
        interpolate_template "{{gas_price_gwei}}" t = "{{gas_price_gwei}}")
      ∧ (∀ template, (∀ p ∈ knownPlaceholders,
            occursIn p.toList template.toList = false) →
          interpolate_template template t = template)
      ∧ interpolate_template "{{hash}} {{value_eth}}" txEx
          = "0x123 1.000000" := by
  refine ⟨?_, ?_, ?_, ?_, ?_, by decide⟩
  · intro w hw
    cases hg : parseU64 t.gas_price with
    | none =>
      simp only [interpolate_template, hw, hg]
      rw [rsReplace_no_occur "{{value_eth}}" "{{hash}}" _ (by decide),
        rsReplace_no_occur "{{value_eth}}" "{{from}}" _ (by decide),
        rsReplace_no_occur "{{value_eth}}" "{{to}}" _ (by decide),
        rsReplace_no_occur "{{value_eth}}" "{{value}}" _ (by decide),
        rsReplace_no_occur "{{value_eth}}" "{{gas}}" _ (by decide),
        rsReplace_no_occur "{{value_eth}}" "{{gas_price}}" _ (by decide),
        rsReplace_no_occur "{{value_eth}}" "{{nonce}}" _ (by decide),
        rsReplace_no_occur "{{value_eth}}" "{{chain_id}}" _ (by decide),
        rsReplace_no_occur "{{value_eth}}" "{{timestamp}}" _ (by decide),
        rsReplace_no_occur "{{value_eth}}" "{{status}}" _ (by decide),
        rsReplace_self "{{value_eth}}" _ (by decide)]
    | some g =>
      simp only [interpolate_template, hw, hg]
      rw [rsReplace_no_occur "{{value_eth}}" "{{hash}}" _ (by decide),
        rsReplace_no_occur "{{value_eth}}" "{{from}}" _ (by decide),
        rsReplace_no_occur "{{value_eth}}" "{{to}}" _ (by decide),
        rsReplace_no_occur "{{value_eth}}" "{{value}}" _ (by decide),
        rsReplace_no_occur "{{value_eth}}" "{{gas}}" _ (by decide),
        rsReplace_no_occur "{{value_eth}}" "{{gas_price}}" _ (by decide),
        rsReplace_no_occur "{{value_eth}}" "{{nonce}}" _ (by decide),
        rsReplace_no_occur "{{value_eth}}" "{{chain_id}}" _ (by decide),
        rsReplace_no_occur "{{value_eth}}" "{{timestamp}}" _ (by decide),
        rsReplace_no_occur "{{value_eth}}" "{{status}}" _ (by decide),
        rsReplace_self "{{value_eth}}" _ (by decide),
        rsReplace_no_occur (formatEth w) "{{gas_price_gwei}}" _
          (occursIn_brace_head "{{gas_price_gwei}}".toList (formatEth w).toList
            (by decide) (formatFixed_no_brace 6 w (10 ^ 18)))]
  · intro hw
    cases hg : parseU64 t.gas_price with
    | none =>
      simp only [interpolate_template, hw, hg]
      rw [rsReplace_no_occur "{{value_eth}}" "{{hash}}" _ (by decide),
        rsReplace_no_occur "{{value_eth}}" "{{from}}" _ (by decide),
        rsReplace_no_occur "{{value_eth}}" "{{to}}" _ (by decide),
        rsReplace_no_occur "{{value_eth}}" "{{value}}" _ (by decide),
        rsReplace_no_occur "{{value_eth}}" "{{gas}}" _ (by decide),
        rsReplace_no_occur "{{value_eth}}" "{{gas_price}}" _ (by decide),
        rsReplace_no_occur "{{value_eth}}" "{{nonce}}" _ (by decide),
        rsReplace_no_occur "{{value_eth}}" "{{chain_id}}" _ (by decide),
        rsReplace_no_occur "{{value_eth}}" "{{timestamp}}" _ (by decide),
        rsReplace_no_occur "{{value_eth}}" "{{status}}" _ (by decide)]
    | some g =>
      simp only [interpolate_template, hw, hg]
      rw [rsReplace_no_occur "{{value_eth}}" "{{hash}}" _ (by decide),
        rsReplace_no_occur "{{value_eth}}" "{{from}}" _ (by decide),
        rsReplace_no_occur "{{value_eth}}" "{{to}}" _ (by decide),
        rsReplace_no_occur "{{value_eth}}" "{{value}}" _ (by decide),
        rsReplace_no_occur "{{value_eth}}" "{{gas}}" _ (by decide),
        rsReplace_no_occur "{{value_eth}}" "{{gas_price}}" _ (by decide),
        rsReplace_no_occur "{{value_eth}}" "{{nonce}}" _ (by decide),
        rsReplace_no_occur "{{value_eth}}" "{{chain_id}}" _ (by decide),
        rsReplace_no_occur "{{value_eth}}" "{{timestamp}}" _ (by decide),
        rsReplace_no_occur "{{value_eth}}" "{{status}}" _ (by decide),
        rsReplace_no_occur "{{value_eth}}" "{{gas_price_gwei}}" _ (by decide)]
  · intro g hg
    cases hv : parseU128 t.value with
    | none =>
      simp only [interpolate_template, hv, hg]
      rw [rsReplace_no_occur "{{gas_price_gwei}}" "{{hash}}" _ (by decide),
        rsReplace_no_occur "{{gas_price_gwei}}" "{{from}}" _ (by decide),
        rsReplace_no_occur "{{gas_price_gwei}}" "{{to}}" _ (by decide),
        rsReplace_no_occur "{{gas_price_gwei}}" "{{value}}" _ (by decide),
        rsReplace_no_occur "{{gas_price_gwei}}" "{{gas}}" _ (by decide),
        rsReplace_no_occur "{{gas_price_gwei}}" "{{gas_price}}" _ (by decide),
        rsReplace_no_occur "{{gas_price_gwei}}" "{{nonce}}" _ (by decide),
        rsReplace_no_occur "{{gas_price_gwei}}" "{{chain_id}}" _ (by decide),
        rsReplace_no_occur "{{gas_price_gwei}}" "{{timestamp}}" _ (by decide),
        rsReplace_no_occur "{{gas_price_gwei}}" "{{status}}" _ (by decide),
        rsReplace_self "{{gas_price_gwei}}" _ (by decide)]
    | some w =>
      simp only [interpolate_template, hv, hg]
      rw [rsReplace_no_occur "{{gas_price_gwei}}" "{{hash}}" _ (by decide),
        rsReplace_no_occur "{{gas_price_gwei}}" "{{from}}" _ (by decide),
        rsReplace_no_occur "{{gas_price_gwei}}" "{{to}}" _ (by decide),
        rsReplace_no_occur "{{gas_price_gwei}}" "{{value}}" _ (by decide),
        rsReplace_no_occur "{{gas_price_gwei}}" "{{gas}}" _ (by decide),
        rsReplace_no_occur "{{gas_price_gwei}}" "{{gas_price}}" _ (by decide),
        rsReplace_no_occur "{{gas_price_gwei}}" "{{nonce}}" _ (by decide),
        rsReplace_no_occur "{{gas_price_gwei}}" "{{chain_id}}" _ (by decide),
        rsReplace_no_occur "{{gas_price_gwei}}" "{{timestamp}}" _ (by decide),
        rsReplace_no_occur "{{gas_price_gwei}}" "{{status}}" _ (by decide),
        rsReplace_no_occur "{{gas_price_gwei}}" "{{value_eth}}" _ (by decide),
        rsReplace_self "{{gas_price_gwei}}" _ (by decide)]
  · intro hg
    cases hv : parseU128 t.value with
    | none =>
      simp only [interpolate_template, hv, hg]
      rw [rsReplace_no_occur "{{gas_price_gwei}}" "{{hash}}" _ (by decide),
        rsReplace_no_occur "{{gas_price_gwei}}" "{{from}}" _ (by decide),
        rsReplace_no_occur "{{gas_price_gwei}}" "{{to}}" _ (by decide),
        rsReplace_no_occur "{{gas_price_gwei}}" "{{value}}" _ (by decide),
        rsReplace_no_occur "{{gas_price_gwei}}" "{{gas}}" _ (by decide),
        rsReplace_no_occur "{{gas_price_gwei}}" "{{gas_price}}" _ (by decide),
        rsReplace_no_occur "{{gas_price_gwei}}" "{{nonce}}" _ (by decide),
        rsReplace_no_occur "{{gas_price_gwei}}" "{{chain_id}}" _ (by decide),
        rsReplace_no_occur "{{gas_price_gwei}}" "{{timestamp}}" _ (by decide),
        rsReplace_no_occur "{{gas_price_gwei}}" "{{status}}" _ (by decide)]
    | some w =>
      simp only [interpolate_template, hv, hg]
      rw [rsReplace_no_occur "{{gas_price_gwei}}" "{{hash}}" _ (by decide),
        rsReplace_no_occur "{{gas_price_gwei}}" "{{from}}" _ (by decide),
        rsReplace_no_occur "{{gas_price_gwei}}" "{{to}}" _ (by decide),
        rsReplace_no_occur "{{gas_price_gwei}}" "{{value}}" _ (by decide),
        rsReplace_no_occur "{{gas_price_gwei}}" "{{gas}}" _ (by decide),
        rsReplace_no_occur "{{gas_price_gwei}}" "{{gas_price}}" _ (by decide),
        rsReplace_no_occur "{{gas_price_gwei}}" "{{nonce}}" _ (by decide),
        rsReplace_no_occur "{{gas_price_gwei}}" "{{chain_id}}" _ (by decide),
        rsReplace_no_occur "{{gas_price_gwei}}" "{{timestamp}}" _ (by decide),
        rsReplace_no_occur "{{gas_price_gwei}}" "{{status}}" _ (by decide),
        rsReplace_no_occur "{{gas_price_gwei}}" "{{value_eth}}" _ (by decide)]
  · intro template hnp
    cases hv : parseU128 t.value <;> cases hg : parseU64 t.gas_price <;>
      simp only [interpolate_template, hv, hg] <;>
      rw [rsReplace_no_occur template "{{hash}}" _ (hnp "{{hash}}" (by decide)),
        rsReplace_no_occur template "{{from}}" _ (hnp "{{from}}" (by decide)),
        rsReplace_no_occur template "{{to}}" _ (hnp "{{to}}" (by decide)),
        rsReplace_no_occur template "{{value}}" _ (hnp "{{value}}" (by decide)),
        rsReplace_no_occur template "{{gas}}" _ (hnp "{{gas}}" (by decide)),
        rsReplace_no_occur template "{{gas_price}}" _ (hnp "{{gas_price}}" (by decide)),
        rsReplace_no_occur template "{{nonce}}" _ (hnp "{{nonce}}" (by decide)),
        rsReplace_no_occur template "{{chain_id}}" _ (hnp "{{chain_id}}" (by decide)),
        rsReplace_no_occur template "{{timestamp}}" _ (hnp "{{timestamp}}" (by decide)),
        rsReplace_no_occur template "{{status}}" _ (hnp "{{status}}" (by decide))] <;>
      (try rw [rsReplace_no_occur template "{{value_eth}}" _
        (hnp "{{value_eth}}" (by decide))]) <;>
      (try rw [rsReplace_no_occur template "{{gas_price_gwei}}" _
        (hnp "{{gas_price_gwei}}" (by decide))])

/-- Witness for C4 at the executor test's transaction. -/
theorem template_interpolation_witness :
    interpolate_template "{{value_eth}}" txEx
      = formatEth 1000000000000000000 :=
  (template_interpolation txEx).1 1000000000000000000 (by decide)
